import Mathlib

/-!
Shallow embedding of the gitleaks-action controller (`src/index.js`) and
proofs about the claims of its specification.

The only source file of the repository is `src/index.js`; the modules it
requires (`./summary.js`, `./keygen.js`, `./gitleaks.js`) and the REST
client are external collaborators.  Their visible behaviour is passed in as
data (`Collab` below); whatever the claims need of them that is not under
`src/` is modelled from the spec, in definitions whose doc comments say so.

The embedding is a pure function from the run's inputs (environment
variables, event payload fields, collaborator behaviours) to the
observable run: the ordered list of collaborator invocations (`Step`) and
how the process terminates (`Termination`).
-/

deriving instance DecidableEq for Except

namespace GitleaksAction

/-- A log entry emitted through `core.info` / `core.warning` / `core.error`. -/
inductive Log where
  | info (msg : String) : Log
  | warning (msg : String) : Log
  | error (msg : String) : Log
deriving DecidableEq, Repr

/-- The environment variables read by `src/index.js`.  A `none` value is an
unset variable (JS `undefined`); `some s` is the variable set to string `s`
(possibly empty).  `GITHUB_EVENT_NAME` is modelled as a plain string: the
code only compares it against the three supported event names, and an unset
variable compares unequal to all of them exactly like any unsupported
string. -/
structure Env where
  GITLEAKS_ENABLE_SUMMARY : Option String
  GITLEAKS_ENABLE_UPLOAD_ARTIFACT : Option String
  GITLEAKS_LICENSE : Option String
  GITLEAKS_VERSION : Option String
  GITHUB_EVENT_NAME : String
deriving DecidableEq, Repr

/-- The `scanInfo` record built in `start` (`src/index.js` lines 120-124). -/
structure ScanInfo where
  headRef : String
  baseRef : String
  gitleaksPath : String
deriving DecidableEq, Repr

/-- An invocation of the external scan executor, with the arguments the
controller passes (`gitleaks.Scan` / `gitleaks.ScanPullRequest`). -/
inductive ScanCall where
  | scan (uploadArtifact : Bool) (scanInfo : ScanInfo) (eventType : String) : ScanCall
  | scanPullRequest (uploadArtifact : Bool) (eventType : String) : ScanCall
deriving DecidableEq, Repr

/-- One observable collaborator invocation made by the controller, in
program order. -/
inductive Step where
  | validateKey : Step
  | latest : Step
  | install (version : String) : Step
  | scanExec (call : ScanCall) : Step
  | summaryWrite (exitCode : Int) : Step
deriving DecidableEq, Repr

/-- How the run ends.  `completed` means `start()` resolved without calling
`process.exit`, so the node process exits naturally with code 0.
`exited c` is an explicit `process.exit(c)`.  `crashed e` is an exception
propagating out of the `async` control flow with nothing catching it (an
unhandled promise rejection): the reporting and exit-code steps that follow
the throwing expression never run. -/
inductive Termination where
  | completed : Termination
  | exited (code : Int) : Termination
  | crashed (err : String) : Termination
deriving DecidableEq, Repr

/-- The final process exit code a termination produces, when the model
determines one: natural completion exits 0, `process.exit c` exits `c`; a
crash's code is left undetermined by this model. -/
def finalExitCode : Termination → Option Int
  | Termination.completed => some 0
  | Termination.exited c => some c
  | Termination.crashed _ => none

/-- Behaviour of the external collaborators for one run. -/
structure Collab where
  /-- Result of `octokit.request "GET /users/..."`: `Except.ok t` is a
  response whose `user.data.type` is `t`; `Except.error e` is a rejected
  lookup (network error, not-found, timeout), handled by the `.catch`. -/
  userLookup : Except String String
  /-- Value returned by `gitleaks.Latest octokit`. -/
  latestVersion : String
  /-- Path returned by `gitleaks.Install version`.  Modelled from the spec:
  `gitleaks.js` is not under `src/`; per the spec, engine
  resolution/installation failure is fatal pre-scan and no claim exercises
  it, so `Latest` and `Install` are modelled as succeeding. -/
  installPath : String
  /-- Result of `gitleaks.Scan`: `Except.ok c` is a numeric exit code,
  `Except.error e` is the call throwing / its promise rejecting. -/
  scanResult : Except String Int
  /-- Result of `gitleaks.ScanPullRequest`, same convention as
  `scanResult`. -/
  scanPRResult : Except String Int
  /-- Modelled from the spec: `keygen.js` is not under `src/`.  The spec
  says a credential that fails validation makes the gate fail closed and
  terminate the process with a non-zero status, so `ValidateKey` either
  returns (`none`) or terminates the process with non-zero code `c`
  (`some c`). -/
  validateKeyResult : Option Int
  /-- Modelled from the spec: `gitleaks.js` is not under `src/`.  The spec
  describes the leak exit code as a reserved non-zero sentinel value,
  distinct from the controller's normalized exit code 1. -/
  EXIT_CODE_LEAKS_DETECTED : Int
deriving Repr

/-! ## JavaScript-semantics primitives -/

/-- Whitespace recognized by JavaScript `ToNumber` trimming (the common
characters: space, tab, LF, VT, FF, CR, NBSP). -/
def isJsWhitespace (c : Char) : Bool :=
  c = ' ' || c = Char.ofNat 9 || c = Char.ofNat 10 || c = Char.ofNat 11 ||
  c = Char.ofNat 12 || c = Char.ofNat 13 || c = Char.ofNat 160

/-- All characters are the digit zero. -/
def allZero (l : List Char) : Bool := l.all (fun c => c = '0')

/-- Zero-ness of the decimal branch of a JS string numeric literal, after
the optional sign: `Infinity`, or decimal digits with optional fraction
and exponent.  Returns `true` exactly when the literal is well formed and
its value is zero (all mantissa digits are `0`; a denormal underflow of a
tiny nonzero literal to floating-point zero is not modelled — no claim
involves such strings). -/
def decimalLiteralZero (l : List Char) : Bool :=
  let l := match l with
    | '+' :: r => r
    | '-' :: r => r
    | _ => l
  if l = "Infinity".toList then false
  else
    let intPart := l.takeWhile Char.isDigit
    let r1 := l.dropWhile Char.isDigit
    let (fracPart, r2) : List Char × List Char :=
      match r1 with
      | '.' :: r => (r.takeWhile Char.isDigit, r.dropWhile Char.isDigit)
      | _ => ([], r1)
    let (expOk, r3) : Bool × List Char :=
      match r2 with
      | e :: r =>
        if e = 'e' || e = 'E' then
          let r' := match r with
            | '+' :: q => q
            | '-' :: q => q
            | _ => r
          (!(r'.takeWhile Char.isDigit).isEmpty, r'.dropWhile Char.isDigit)
        else (true, r2)
      | [] => (true, [])
    (!intPart.isEmpty || !fracPart.isEmpty) && expOk && r3.isEmpty &&
      allZero (intPart ++ fracPart)

/-- `true` exactly when JavaScript `ToNumber` maps the string to (plus or
minus) zero, i.e. when the loose comparison `s == 0` holds: the trimmed
string is empty, or it is a radix literal (`0x`/`0o`/`0b`) whose digits are
all zero, or a signed decimal literal whose mantissa digits are all zero. -/
def jsNumericZero (s : String) : Bool :=
  let l := ((s.toList.dropWhile isJsWhitespace).reverse.dropWhile
    isJsWhitespace).reverse
  match l with
  | [] => true
  | '0' :: c :: rest =>
    if c = 'x' || c = 'X' || c = 'o' || c = 'O' || c = 'b' || c = 'B' then
      !rest.isEmpty && allZero rest
    else decimalLiteralZero l
  | _ => decimalLiteralZero l

/-- JavaScript truthiness of an environment variable: `undefined` and the
empty string are falsy, every other string is truthy.  Used for
`!process.env.GITLEAKS_LICENSE` and `process.env.GITLEAKS_VERSION || ...`. -/
def envTruthy : Option String → Bool
  | none => false
  | some s => !(s = "")

/-- The disabling condition shared by the two feature flags
(`src/index.js` lines 14-17 and 23-26):
`process.env.X == "false" || process.env.X == 0` under JS loose equality.
An unset variable (`undefined`) satisfies neither disjunct. -/
def envFlagDisabled : Option String → Bool
  | none => false
  | some s => s = "false" || jsNumericZero s

/-- `gitleaksEnableSummary` (`src/index.js` lines 13-20): `true` unless the
environment variable loosely equals `"false"` or `0`. -/
def gitleaksEnableSummary (env : Env) : Bool :=
  !envFlagDisabled env.GITLEAKS_ENABLE_SUMMARY

/-- `gitleaksEnableUploadArtifact` (`src/index.js` lines 22-29). -/
def gitleaksEnableUploadArtifact (env : Env) : Bool :=
  !envFlagDisabled env.GITLEAKS_ENABLE_UPLOAD_ARTIFACT

/-! ## Components of the controller -/

/-- The actor classifier: the `.then` / `.catch` handlers of the user
lookup (`src/index.js` lines 50-80).  `shouldValidate` starts `true`; only
a definitive `"User"` type sets it to `false`.  Returns the log entry the
handler emits together with the resulting `shouldValidate`.  The handlers
never call `process.exit` and the `.catch` absorbs every lookup failure, so
the classifier is total: its codomain has no termination, a failed lookup
degrades to enforcing validation. -/
def classifyUser (username : String) (lookup : Except String String) :
    Log × Bool :=
  match lookup with
  | Except.ok t =>
    if t = "Organization" then
      (Log.info ("[" ++ username ++ "] is an organization. License key is required."),
       true)
    else if t = "User" then
      (Log.info ("[" ++ username ++ "] is an individual user. No license key is required."),
       false)
    else
      (Log.warning ("[" ++ username ++ "] is an unexpected type [" ++ t ++
        "]. License key validation will be enforced 🤷."), true)
  | Except.error err =>
    (Log.warning ("Get user [" ++ username ++ "] failed with error [" ++ err ++
      "]. License key validation will be enforced 🤷."), true)

/-- The license-gate condition of `src/index.js` line 83:
`shouldValidate && !process.env.GITLEAKS_LICENSE`.  When `true`, the run
exits with code 1 before `start()` is called. -/
def gateBlocks (shouldValidate : Bool) (license : Option String) : Bool :=
  shouldValidate && !envTruthy license

/-- `supportedEvents` (`src/index.js` line 97). -/
def supportedEvents : List String :=
  ["push", "pull_request", "workflow_dispatch"]

/-- The outcome interpretation at the end of `start`
(`src/index.js` lines 154-162): `0` logs an info message and falls off the
end of `start` (natural exit 0); the leak sentinel logs a warning and calls
`process.exit 1`; anything else logs an error naming the raw code and calls
`process.exit` with that raw code. -/
def interpretOutcome (sentinel exitCode : Int) : Log × Termination :=
  if exitCode = 0 then
    (Log.info "✅ No leaks detected", Termination.completed)
  else if exitCode = sentinel then
    (Log.warning "🛑 Leaks detected, see job summary for details",
     Termination.exited 1)
  else
    (Log.error ("ERROR: Unexpected exit code [" ++ toString exitCode ++ "]"),
     Termination.exited exitCode)

/-- The steps contributed by the version resolution
(`process.env.GITLEAKS_VERSION || (await gitleaks.Latest(octokit))`,
`src/index.js` lines 114-115): a truthy override skips `gitleaks.Latest`. -/
def versionSteps (env : Env) : List Step :=
  if envTruthy env.GITLEAKS_VERSION then [] else [Step.latest]

/-- The resolved `gitleaksVersion` value of the same expression. -/
def resolvedVersion (env : Env) (c : Collab) : String :=
  if envTruthy env.GITLEAKS_VERSION then env.GITLEAKS_VERSION.getD ""
  else c.latestVersion

/-- The executor invocation chosen by the event-type dispatch
(`src/index.js` lines 128-147); `none` when no branch matches (then the
default `exitCode = 0` of line 111 stands). -/
def dispatchCall (env : Env) (scanInfo : ScanInfo) : Option ScanCall :=
  let eventType := env.GITHUB_EVENT_NAME
  if eventType = "push" then
    some (ScanCall.scan (gitleaksEnableUploadArtifact env) scanInfo eventType)
  else if eventType = "workflow_dispatch" then
    some (ScanCall.scan (gitleaksEnableUploadArtifact env) scanInfo eventType)
  else if eventType = "pull_request" then
    some (ScanCall.scanPullRequest (gitleaksEnableUploadArtifact env) eventType)
  else none

/-- The result the chosen executor produces (`gitleaks.Scan` for push and
workflow_dispatch, `gitleaks.ScanPullRequest` for pull_request); `.ok 0`
when no branch matches, mirroring the untouched default `exitCode`. -/
def dispatchResult (env : Env) (c : Collab) : Except String Int :=
  let eventType := env.GITHUB_EVENT_NAME
  if eventType = "push" then c.scanResult
  else if eventType = "workflow_dispatch" then c.scanResult
  else if eventType = "pull_request" then c.scanPRResult
  else Except.ok 0

/-- The scan-executor step(s) the dispatch contributes to the trace. -/
def scanSteps (env : Env) (scanInfo : ScanInfo) : List Step :=
  match dispatchCall env scanInfo with
  | some call => [Step.scanExec call]
  | none => []

/-- The reporter step(s): `summary.Write` gated by `gitleaksEnableSummary`
(`src/index.js` lines 150-152). -/
def summarySteps (env : Env) (exitCode : Int) : List Step :=
  if gitleaksEnableSummary env then [Step.summaryWrite exitCode] else []

/-- The tail of `start` after the supported-event check and
`keygen.ValidateKey` both passed: version resolution, install, dispatch to
the executor, summary write, outcome interpretation
(`src/index.js` lines 109-162). -/
def startAfterValidate (env : Env) (c : Collab) (validateSteps : List Step)
    (after before : String) : List Step × Termination :=
  let scanInfo : ScanInfo :=
    { headRef := after, baseRef := before, gitleaksPath := c.installPath }
  let preScan := validateSteps ++ versionSteps env ++
    [Step.install (resolvedVersion env c)]
  match dispatchResult env c with
  | Except.error e => (preScan ++ scanSteps env scanInfo, Termination.crashed e)
  | Except.ok exitCode =>
    (preScan ++ scanSteps env scanInfo ++ summarySteps env exitCode,
     (interpretOutcome c.EXIT_CODE_LEAKS_DETECTED exitCode).2)

/-- `start` (`src/index.js` lines 96-163), given the already-computed
`shouldValidate` and the event payload fields `after` / `before`
(`eventJSON.after`, `eventJSON.before`).  Returns the ordered collaborator
invocations and the termination.

Order, as in the source: unsupported-event check (exit 1), then
`keygen.ValidateKey` when `shouldValidate`, then version resolution
(`GITLEAKS_VERSION` if truthy, else `gitleaks.Latest`), then
`gitleaks.Install`, then the event-type dispatch to the scan executor,
then the summary write gated by `gitleaksEnableSummary`, then the outcome
interpretation.  A rejecting executor is not caught anywhere in `start`,
so it yields `Termination.crashed`.  The version resolution and the
event-type dispatch of the source are factored into the component
functions `versionSteps` / `resolvedVersion`, `dispatchCall` /
`dispatchResult`, `scanSteps`, `summarySteps` and `startAfterValidate`
declared above and used here. -/
def start (env : Env) (c : Collab) (shouldValidate : Bool)
    (after before : String) : List Step × Termination :=
  let eventType := env.GITHUB_EVENT_NAME
  if !(supportedEvents.contains eventType) then
    ([], Termination.exited 1)
  else
    let validateSteps := if shouldValidate then [Step.validateKey] else []
    match (if shouldValidate then c.validateKeyResult else none) with
    | some code => (validateSteps, Termination.exited code)
    | none => startAfterValidate env c validateSteps after before

/-- The whole controller run: classification (`.then`/`.catch`), then the
`.finally` handler (`src/index.js` lines 81-92) — license gate, then
`start()`.  `username` is `eventJSON.repository.owner.login`.  The summary
writer (`summary.Write`) is modelled from the spec: `summary.js` is not
under `src/` and per the spec reporter failures are logged and never mask
the exit code, so `Write` is modelled as always returning. -/
def runController (env : Env) (c : Collab) (username after before : String) :
    List Step × Termination :=
  let shouldValidate := (classifyUser username c.userLookup).2
  if gateBlocks shouldValidate env.GITLEAKS_LICENSE then
    ([], Termination.exited 1)
  else
    start env c shouldValidate after before

/-! ## Trace observations -/

/-- Number of scan-executor invocations in a trace. -/
def countScanExec (l : List Step) : Nat :=
  l.countP (fun s => match s with | Step.scanExec _ => true | _ => false)

/-- Number of reporter (`summary.Write`) invocations in a trace. -/
def countSummaryWrite (l : List Step) : Nat :=
  l.countP (fun s => match s with | Step.summaryWrite _ => true | _ => false)

/-- The scan-executor invocations of a trace, with their arguments, in
order. -/
def scanCallsOf (l : List Step) : List ScanCall :=
  l.filterMap (fun s => match s with
    | Step.scanExec call => some call
    | _ => none)

/-! ## Concrete fixtures for witnesses and counterexamples -/

/-- A baseline environment: no feature-flag variables, no license, an
explicit version override, push event. -/
def envBase : Env :=
  { GITLEAKS_ENABLE_SUMMARY := none
    GITLEAKS_ENABLE_UPLOAD_ARTIFACT := none
    GITLEAKS_LICENSE := none
    GITLEAKS_VERSION := some "v8.18.2"
    GITHUB_EVENT_NAME := "push" }

/-- Baseline collaborator behaviour: individual owner, clean scan,
license validation passing, sentinel 2 (the value gitleaks reserves for
leaks). -/
def collabBase : Collab :=
  { userLookup := Except.ok "User"
    latestVersion := "v8.18.2"
    installPath := "gitleaks"
    scanResult := Except.ok 0
    scanPRResult := Except.ok 0
    validateKeyResult := none
    EXIT_CODE_LEAKS_DETECTED := 2 }

/-! ## Helper lemmas -/

lemma classifyUser_snd_eq_false_iff (u : String) (l : Except String String) :
    (classifyUser u l).2 = false ↔ l = Except.ok "User" := by
  cases l with
  | error e => simp [classifyUser]
  | ok t =>
    by_cases h1 : t = "Organization"
    · subst h1; simp [classifyUser]
    · by_cases h2 : t = "User"
      · subst h2; simp [classifyUser]
      · simp [classifyUser, h1, h2]

lemma classifyUser_snd_eq_true (u : String) (l : Except String String)
    (h : l ≠ Except.ok "User") : (classifyUser u l).2 = true := by
  cases hb : (classifyUser u l).2 with
  | true => rfl
  | false => exact absurd ((classifyUser_snd_eq_false_iff u l).mp hb) h

lemma start_unsupported (env : Env) (c : Collab) (sv : Bool) (a b : String)
    (hs : supportedEvents.contains env.GITHUB_EVENT_NAME = false) :
    start env c sv a b = ([], Termination.exited 1) := by
  have h' : env.GITHUB_EVENT_NAME ∉ supportedEvents := by simpa using hs
  simp [start, h']

lemma start_of_supported_false (env : Env) (c : Collab) (a b : String)
    (hs : supportedEvents.contains env.GITHUB_EVENT_NAME = true) :
    start env c false a b = startAfterValidate env c [] a b := by
  have h' : env.GITHUB_EVENT_NAME ∈ supportedEvents := by simpa using hs
  simp [start, h']

lemma start_of_supported_true (env : Env) (c : Collab) (a b : String)
    (hs : supportedEvents.contains env.GITHUB_EVENT_NAME = true)
    (hval : c.validateKeyResult = none) :
    start env c true a b = startAfterValidate env c [Step.validateKey] a b := by
  have h' : env.GITHUB_EVENT_NAME ∈ supportedEvents := by simpa using hs
  simp [start, h', hval]

lemma startAfterValidate_err (env : Env) (c : Collab) (vs : List Step)
    (a b e : String) (h : dispatchResult env c = Except.error e) :
    startAfterValidate env c vs a b =
      (vs ++ versionSteps env ++ [Step.install (resolvedVersion env c)] ++
        scanSteps env { headRef := a, baseRef := b, gitleaksPath := c.installPath },
       Termination.crashed e) := by
  simp [startAfterValidate, h]

lemma startAfterValidate_ok (env : Env) (c : Collab) (vs : List Step)
    (a b : String) (k : Int) (h : dispatchResult env c = Except.ok k) :
    startAfterValidate env c vs a b =
      (vs ++ versionSteps env ++ [Step.install (resolvedVersion env c)] ++
        scanSteps env { headRef := a, baseRef := b, gitleaksPath := c.installPath } ++
        summarySteps env k,
       (interpretOutcome c.EXIT_CODE_LEAKS_DETECTED k).2) := by
  simp [startAfterValidate, h]

lemma validateKey_not_mem_versionSteps (env : Env) :
    Step.validateKey ∉ versionSteps env := by
  unfold versionSteps; split_ifs <;> simp

lemma validateKey_not_mem_scanSteps (env : Env) (si : ScanInfo) :
    Step.validateKey ∉ scanSteps env si := by
  unfold scanSteps
  cases hd : dispatchCall env si <;> simp

lemma validateKey_not_mem_summarySteps (env : Env) (k : Int) :
    Step.validateKey ∉ summarySteps env k := by
  unfold summarySteps; split_ifs <;> simp

lemma countScanExec_versionSteps (env : Env) :
    countScanExec (versionSteps env) = 0 := by
  unfold countScanExec versionSteps; split_ifs <;> simp

lemma countScanExec_summarySteps (env : Env) (k : Int) :
    countScanExec (summarySteps env k) = 0 := by
  unfold countScanExec summarySteps; split_ifs <;> simp

lemma countScanExec_scanSteps_supported (env : Env) (si : ScanInfo)
    (hev : env.GITHUB_EVENT_NAME = "push" ∨
      env.GITHUB_EVENT_NAME = "workflow_dispatch" ∨
      env.GITHUB_EVENT_NAME = "pull_request") :
    countScanExec (scanSteps env si) = 1 := by
  rcases hev with h | h | h <;>
    simp [countScanExec, scanSteps, dispatchCall, h]

lemma countSummaryWrite_versionSteps (env : Env) :
    countSummaryWrite (versionSteps env) = 0 := by
  unfold countSummaryWrite versionSteps; split_ifs <;> simp

lemma countSummaryWrite_scanSteps (env : Env) (si : ScanInfo) :
    countSummaryWrite (scanSteps env si) = 0 := by
  unfold countSummaryWrite scanSteps
  cases hd : dispatchCall env si <;> simp

lemma countSummaryWrite_summarySteps (env : Env) (k : Int) :
    countSummaryWrite (summarySteps env k) =
      if gitleaksEnableSummary env then 1 else 0 := by
  unfold countSummaryWrite summarySteps; split_ifs <;> simp

lemma dispatchResult_push (env : Env) (c : Collab)
    (h : env.GITHUB_EVENT_NAME = "push") : dispatchResult env c = c.scanResult := by
  simp [dispatchResult, h]

lemma dispatchResult_dispatch (env : Env) (c : Collab)
    (h : env.GITHUB_EVENT_NAME = "workflow_dispatch") :
    dispatchResult env c = c.scanResult := by
  simp [dispatchResult, h]

lemma dispatchResult_pr (env : Env) (c : Collab)
    (h : env.GITHUB_EVENT_NAME = "pull_request") :
    dispatchResult env c = c.scanPRResult := by
  simp [dispatchResult, h]

lemma countScanExec_append (l1 l2 : List Step) :
    countScanExec (l1 ++ l2) = countScanExec l1 + countScanExec l2 :=
  List.countP_append _ _ _

lemma countSummaryWrite_append (l1 l2 : List Step) :
    countSummaryWrite (l1 ++ l2) = countSummaryWrite l1 + countSummaryWrite l2 :=
  List.countP_append _ _ _

lemma countScanExec_nil : countScanExec [] = 0 := rfl

lemma countScanExec_validateKey : countScanExec [Step.validateKey] = 0 := rfl

lemma countScanExec_install (v : String) :
    countScanExec [Step.install v] = 0 := rfl

lemma countSummaryWrite_nil : countSummaryWrite [] = 0 := rfl

lemma countSummaryWrite_validateKey :
    countSummaryWrite [Step.validateKey] = 0 := rfl

lemma countSummaryWrite_install (v : String) :
    countSummaryWrite [Step.install v] = 0 := rfl

lemma countScanExec_startAfterValidate (env : Env) (c : Collab)
    (vs : List Step) (a b : String) (hvs : countScanExec vs = 0)
    (hev : env.GITHUB_EVENT_NAME = "push" ∨
      env.GITHUB_EVENT_NAME = "workflow_dispatch" ∨
      env.GITHUB_EVENT_NAME = "pull_request") :
    countScanExec (startAfterValidate env c vs a b).1 = 1 := by
  cases hd : dispatchResult env c with
  | error e =>
    rw [startAfterValidate_err env c vs a b e hd]
    show countScanExec (vs ++ versionSteps env ++ _ ++ _) = 1
    rw [countScanExec_append, countScanExec_append, countScanExec_append,
      hvs, countScanExec_versionSteps, countScanExec_install,
      countScanExec_scanSteps_supported env _ hev]
  | ok k =>
    rw [startAfterValidate_ok env c vs a b k hd]
    show countScanExec (vs ++ versionSteps env ++ _ ++ _ ++ _) = 1
    rw [countScanExec_append, countScanExec_append, countScanExec_append,
      countScanExec_append, hvs, countScanExec_versionSteps,
      countScanExec_install, countScanExec_scanSteps_supported env _ hev,
      countScanExec_summarySteps]

lemma countSummaryWrite_startAfterValidate_ok (env : Env) (c : Collab)
    (vs : List Step) (a b : String) (k : Int)
    (hvs : countSummaryWrite vs = 0)
    (hd : dispatchResult env c = Except.ok k) :
    countSummaryWrite (startAfterValidate env c vs a b).1 =
      if gitleaksEnableSummary env then 1 else 0 := by
  rw [startAfterValidate_ok env c vs a b k hd]
  show countSummaryWrite (vs ++ versionSteps env ++ _ ++ _ ++ _) = _
  rw [countSummaryWrite_append, countSummaryWrite_append,
    countSummaryWrite_append, countSummaryWrite_append, hvs,
    countSummaryWrite_versionSteps, countSummaryWrite_install,
    countSummaryWrite_scanSteps, countSummaryWrite_summarySteps]
  simp

lemma countSummaryWrite_startAfterValidate_err (env : Env) (c : Collab)
    (vs : List Step) (a b e : String) (hvs : countSummaryWrite vs = 0)
    (hd : dispatchResult env c = Except.error e) :
    countSummaryWrite (startAfterValidate env c vs a b).1 = 0 := by
  rw [startAfterValidate_err env c vs a b e hd]
  show countSummaryWrite (vs ++ versionSteps env ++ _ ++ _) = 0
  rw [countSummaryWrite_append, countSummaryWrite_append,
    countSummaryWrite_append, hvs, countSummaryWrite_versionSteps,
    countSummaryWrite_install, countSummaryWrite_scanSteps]

lemma scanCallsOf_append (l1 l2 : List Step) :
    scanCallsOf (l1 ++ l2) = scanCallsOf l1 ++ scanCallsOf l2 :=
  List.filterMap_append _ _ _

lemma scanCallsOf_nil : scanCallsOf [] = [] := rfl

lemma scanCallsOf_validateKey : scanCallsOf [Step.validateKey] = [] := rfl

lemma scanCallsOf_install (v : String) :
    scanCallsOf [Step.install v] = [] := rfl

lemma scanCallsOf_versionSteps (env : Env) :
    scanCallsOf (versionSteps env) = [] := by
  unfold versionSteps; split_ifs <;> rfl

lemma scanCallsOf_summarySteps (env : Env) (k : Int) :
    scanCallsOf (summarySteps env k) = [] := by
  unfold summarySteps; split_ifs <;> rfl

lemma scanCallsOf_startAfterValidate (env : Env) (c : Collab)
    (vs : List Step) (a b : String) (hvs : scanCallsOf vs = []) :
    scanCallsOf (startAfterValidate env c vs a b).1 =
      scanCallsOf (scanSteps env
        { headRef := a, baseRef := b, gitleaksPath := c.installPath }) := by
  cases hd : dispatchResult env c with
  | error e =>
    rw [startAfterValidate_err env c vs a b e hd]
    show scanCallsOf (vs ++ versionSteps env ++ _ ++ _) = _
    rw [scanCallsOf_append, scanCallsOf_append, scanCallsOf_append, hvs,
      scanCallsOf_versionSteps, scanCallsOf_install]
    simp
  | ok k =>
    rw [startAfterValidate_ok env c vs a b k hd]
    show scanCallsOf (vs ++ versionSteps env ++ _ ++ _ ++ _) = _
    rw [scanCallsOf_append, scanCallsOf_append, scanCallsOf_append,
      scanCallsOf_append, hvs, scanCallsOf_versionSteps, scanCallsOf_install,
      scanCallsOf_summarySteps]
    simp

lemma scanCallsOf_start_supported (env : Env) (c : Collab) (sv : Bool)
    (a b : String) (hval : sv = true → c.validateKeyResult = none)
    (hev : env.GITHUB_EVENT_NAME = "push" ∨
      env.GITHUB_EVENT_NAME = "workflow_dispatch") :
    scanCallsOf (start env c sv a b).1 =
      [ScanCall.scan (gitleaksEnableUploadArtifact env)
        { headRef := a, baseRef := b, gitleaksPath := c.installPath }
        env.GITHUB_EVENT_NAME] := by
  have hs : supportedEvents.contains env.GITHUB_EVENT_NAME = true := by
    rcases hev with h | h <;> simp [supportedEvents, h]
  have hsc : scanCallsOf (scanSteps env
      { headRef := a, baseRef := b, gitleaksPath := c.installPath }) =
      [ScanCall.scan (gitleaksEnableUploadArtifact env)
        { headRef := a, baseRef := b, gitleaksPath := c.installPath }
        env.GITHUB_EVENT_NAME] := by
    rcases hev with h | h <;> simp [scanCallsOf, scanSteps, dispatchCall, h]
  cases hsv : sv with
  | false =>
    rw [start_of_supported_false env c a b hs,
      scanCallsOf_startAfterValidate env c [] a b rfl, hsc]
  | true =>
    rw [start_of_supported_true env c a b hs (hval hsv),
      scanCallsOf_startAfterValidate env c [Step.validateKey] a b rfl, hsc]

lemma interpretOutcome_snd_sentinel (sentinel k : Int) (hk : k = sentinel)
    (h0 : k ≠ 0) : (interpretOutcome sentinel k).2 = Termination.exited 1 := by
  subst hk
  simp [interpretOutcome, h0]

lemma runController_gate_pass (env : Env) (c : Collab) (u a b : String)
    (hgate : gateBlocks (classifyUser u c.userLookup).2 env.GITLEAKS_LICENSE
      = false) :
    runController env c u a b =
      start env c (classifyUser u c.userLookup).2 a b := by
  simp [runController, hgate]

/-! ## Claims -/

/-- C1: for every raw exit code `e` returned by the scan executor, the
outcome interpretation of `src/index.js` lines 154-162 maps `e = 0` to
final exit code 0 with an informational no-leaks message; `e` equal to the
leak sentinel (`gitleaks.EXIT_CODE_LEAKS_DETECTED`, a reserved value
distinct from 0 and 1) to final exit code 1 — normalized, not the raw
sentinel — with a warning message; and any other `e` to final exit code
`e` (raw pass-through) with an error message that includes `e`. -/
theorem c1_outcome_interpretation (sentinel e : Int)
    (h0 : sentinel ≠ 0) (h1 : sentinel ≠ 1) :
    (e = 0 →
      interpretOutcome sentinel e =
        (Log.info "✅ No leaks detected", Termination.completed) ∧
      finalExitCode (interpretOutcome sentinel e).2 = some 0) ∧
    (e = sentinel →
      interpretOutcome sentinel e =
        (Log.warning "🛑 Leaks detected, see job summary for details",
         Termination.exited 1) ∧
      finalExitCode (interpretOutcome sentinel e).2 = some 1 ∧
      (1 : Int) ≠ sentinel) ∧
    (e ≠ 0 → e ≠ sentinel →
      interpretOutcome sentinel e =
        (Log.error ("ERROR: Unexpected exit code [" ++ toString e ++ "]"),
         Termination.exited e) ∧
      finalExitCode (interpretOutcome sentinel e).2 = some e) := by
  refine ⟨?_, ?_, ?_⟩
  · intro he; subst he
    simp [interpretOutcome, finalExitCode]
  · intro he; subst he
    simp [interpretOutcome, finalExitCode, h0, Ne.symm h1]
  · intro he hs
    simp [interpretOutcome, finalExitCode, he, hs]

/-- Witness for C1, at sentinel 2 (gitleaks' leak code) and raw code 7. -/
theorem c1_outcome_interpretation_witness :
    interpretOutcome 2 7 =
      (Log.error ("ERROR: Unexpected exit code [" ++ toString (7 : Int) ++ "]"),
       Termination.exited 7) ∧
    finalExitCode (interpretOutcome 2 7).2 = some 7 :=
  (c1_outcome_interpretation 2 7 (by decide) (by decide)).2.2
    (by decide) (by decide)

/-- C5: when the identity lookup returned type `"User"` (classification
Individual), the license gate lets the run proceed regardless of the
credential being present, absent or empty (`env` — including
`GITLEAKS_LICENSE` — is arbitrary here): the gate condition of line 83 is
false, `keygen.ValidateKey` is never invoked, and on any supported event
the scan executor is reached (invoked exactly once). -/
theorem c5_individual_proceeds (env : Env) (c : Collab) (u a b : String)
    (hUser : c.userLookup = Except.ok "User") :
    gateBlocks (classifyUser u c.userLookup).2 env.GITLEAKS_LICENSE = false ∧
    Step.validateKey ∉ (runController env c u a b).1 ∧
    ((env.GITHUB_EVENT_NAME = "push" ∨
        env.GITHUB_EVENT_NAME = "workflow_dispatch" ∨
        env.GITHUB_EVENT_NAME = "pull_request") →
      countScanExec (runController env c u a b).1 = 1) := by
  have hsv : (classifyUser u c.userLookup).2 = false :=
    (classifyUser_snd_eq_false_iff u c.userLookup).mpr hUser
  have hgate : gateBlocks (classifyUser u c.userLookup).2
      env.GITLEAKS_LICENSE = false := by
    simp [gateBlocks, hsv]
  have hrun : runController env c u a b = start env c false a b := by
    rw [runController_gate_pass env c u a b hgate, hsv]
  refine ⟨hgate, ?_, ?_⟩
  · rw [hrun]
    by_cases hs : supportedEvents.contains env.GITHUB_EVENT_NAME
    · rw [start_of_supported_false env c a b hs]
      cases hd : dispatchResult env c with
      | error e =>
        rw [startAfterValidate_err env c [] a b e hd]
        simp [validateKey_not_mem_versionSteps, validateKey_not_mem_scanSteps]
      | ok k =>
        rw [startAfterValidate_ok env c [] a b k hd]
        simp [validateKey_not_mem_versionSteps, validateKey_not_mem_scanSteps,
          validateKey_not_mem_summarySteps]
    · rw [start_unsupported env c false a b (by simpa using hs)]
      simp
  · intro hev
    have hs : supportedEvents.contains env.GITHUB_EVENT_NAME = true := by
      rcases hev with h | h | h <;> simp [supportedEvents, h]
    rw [hrun, start_of_supported_false env c a b hs]
    exact countScanExec_startAfterValidate env c [] a b rfl hev

/-- Witness for C5: individual owner, no license at all, push event. -/
theorem c5_individual_proceeds_witness :
    countScanExec (runController envBase collabBase "octocat" "aaa" "bbb").1
      = 1 :=
  (c5_individual_proceeds envBase collabBase "octocat" "aaa" "bbb" rfl).2.2
    (Or.inl rfl)

/-- C6: when the classification is Organization or Unknown (the lookup did
not return `"User"`, so `shouldValidate` stayed `true`) and the license
credential is absent or empty, the run terminates with the license-missing
exit code (1) and an empty collaborator trace: no strategy selection, no
`keygen.ValidateKey`, no engine resolution or installation, no scan
executor, no report. -/
theorem c6_missing_license_gate (env : Env) (c : Collab) (u a b : String)
    (hNotUser : c.userLookup ≠ Except.ok "User")
    (hlic : env.GITLEAKS_LICENSE = none ∨ env.GITLEAKS_LICENSE = some "") :
    runController env c u a b = ([], Termination.exited 1) := by
  have hsv := classifyUser_snd_eq_true u c.userLookup hNotUser
  have hgate : gateBlocks (classifyUser u c.userLookup).2
      env.GITLEAKS_LICENSE = true := by
    rcases hlic with h | h <;> simp [gateBlocks, hsv, h, envTruthy]
  simp [runController, hgate]

/-- Witness for C6: organization owner, no license set. -/
theorem c6_missing_license_gate_witness :
    runController envBase
      { collabBase with userLookup := Except.ok "Organization" }
      "acme" "a" "b" = ([], Termination.exited 1) :=
  c6_missing_license_gate _ _ _ _ _ (by decide) (Or.inl rfl)

/-- C7: for every event kind outside push / pull_request /
workflow_dispatch, the run terminates with the fixed non-zero exit code 1
and an empty collaborator trace — before the scan executor is invoked,
before `keygen.ValidateKey` validates the credential, and before any
engine version resolution (`gitleaks.Latest`) or installation
(`gitleaks.Install`). -/
theorem c7_unsupported_event (env : Env) (c : Collab) (u a b : String)
    (hev : supportedEvents.contains env.GITHUB_EVENT_NAME = false) :
    runController env c u a b = ([], Termination.exited 1) := by
  by_cases hg : gateBlocks (classifyUser u c.userLookup).2
      env.GITLEAKS_LICENSE = true
  · simp [runController, hg]
  · rw [runController_gate_pass env c u a b (by simpa using hg)]
    exact start_unsupported env c _ a b hev

/-- Witness for C7: an `issues` event. -/
theorem c7_unsupported_event_witness :
    runController { envBase with GITHUB_EVENT_NAME := "issues" } collabBase
      "acme" "a" "b" = ([], Termination.exited 1) :=
  c7_unsupported_event _ _ _ _ _ (by decide)

/-- C8: the actor classifier is a total function of the lookup result — it
never terminates the process or raises (its codomain is a log entry plus
the resulting `shouldValidate`, with no termination): a definitive
`"User"` type — and only that — disables license validation; a definitive
`"Organization"` type, any other type, and any lookup failure keep it
enforced (classification Unknown degrades conservatively); the emitted log
entry is always informational or a warning, never `core.error`; and with
validation enforced and an absent or empty credential the license gate
blocks the run. -/
theorem c8_classifier_never_fatal (u : String) (l : Except String String) :
    ((classifyUser u l).2 = false ↔ l = Except.ok "User") ∧
    (∃ m, (classifyUser u l).1 = Log.info m ∨
      (classifyUser u l).1 = Log.warning m) ∧
    (∀ lic : Option String, envTruthy lic = false →
      (classifyUser u l).2 = true →
      gateBlocks (classifyUser u l).2 lic = true) := by
  refine ⟨classifyUser_snd_eq_false_iff u l, ?_, ?_⟩
  · cases l with
    | error e => exact ⟨_, Or.inr rfl⟩
    | ok t =>
      simp only [classifyUser]
      split_ifs <;> first
        | exact ⟨_, Or.inl rfl⟩
        | exact ⟨_, Or.inr rfl⟩
  · intro lic hlic htrue
    simp [gateBlocks, htrue, hlic]

/-- Witness for C8: a failed lookup (timeout) keeps validation enforced and
the gate blocks when no credential is set. -/
theorem c8_classifier_never_fatal_witness :
    (classifyUser "octocat" (Except.error "timeout")).2 = true ∧
    gateBlocks (classifyUser "octocat" (Except.error "timeout")).2 none
      = true := by
  have h := c8_classifier_never_fatal "octocat" (Except.error "timeout")
  have ht : (classifyUser "octocat" (Except.error "timeout")).2 = true := by
    cases hb : (classifyUser "octocat" (Except.error "timeout")).2 with
    | true => rfl
    | false => exact absurd (h.1.mp hb) (by decide)
  exact ⟨ht, h.2.2 none rfl ht⟩

/-- C9: each feature flag is false exactly when its environment variable
loosely equals the string "false" or the number 0 — which includes the
strings "0", "0.0" and the empty string — and true in every other case,
including when the variable is unset; in particular the empty string
disables the feature.  (The flags are plain functions of the startup
environment, computed once: the embedding reads `env` nowhere else.) -/
theorem c9_feature_flags (env : Env) :
    (gitleaksEnableSummary env = false ↔
      (env.GITLEAKS_ENABLE_SUMMARY = some "false" ∨
        ∃ s, env.GITLEAKS_ENABLE_SUMMARY = some s ∧
          jsNumericZero s = true)) ∧
    (gitleaksEnableUploadArtifact env = false ↔
      (env.GITLEAKS_ENABLE_UPLOAD_ARTIFACT = some "false" ∨
        ∃ s, env.GITLEAKS_ENABLE_UPLOAD_ARTIFACT = some s ∧
          jsNumericZero s = true)) ∧
    (jsNumericZero "0" = true ∧ jsNumericZero "0.0" = true ∧
      jsNumericZero "" = true ∧ jsNumericZero "false" = false ∧
      jsNumericZero "true" = false ∧ jsNumericZero "1" = false) ∧
    (env.GITLEAKS_ENABLE_SUMMARY = none →
      gitleaksEnableSummary env = true) ∧
    (env.GITLEAKS_ENABLE_UPLOAD_ARTIFACT = none →
      gitleaksEnableUploadArtifact env = true) := by
  refine ⟨?_, ?_, by decide, ?_, ?_⟩
  · cases hv : env.GITLEAKS_ENABLE_SUMMARY with
    | none => simp [gitleaksEnableSummary, envFlagDisabled, hv]
    | some s =>
      simp [gitleaksEnableSummary, envFlagDisabled, hv]
      tauto
  · cases hv : env.GITLEAKS_ENABLE_UPLOAD_ARTIFACT with
    | none => simp [gitleaksEnableUploadArtifact, envFlagDisabled, hv]
    | some s =>
      simp [gitleaksEnableUploadArtifact, envFlagDisabled, hv]
      tauto
  · intro hv; simp [gitleaksEnableSummary, envFlagDisabled, hv]
  · intro hv; simp [gitleaksEnableUploadArtifact, envFlagDisabled, hv]

/-- Witness for C9: the empty string disables the summary even though the
default (unset) is enabled. -/
theorem c9_feature_flags_witness :
    gitleaksEnableSummary
      { envBase with GITLEAKS_ENABLE_SUMMARY := some "" } = false ∧
    gitleaksEnableSummary envBase = true := by
  constructor
  · exact
      ((c9_feature_flags
        { envBase with GITLEAKS_ENABLE_SUMMARY := some "" }).1).mpr
        (Or.inr ⟨"", rfl, by decide⟩)
  · exact (c9_feature_flags envBase).2.2.2.1 rfl

/-- C2 counterexample: the claim says the license-gate exit code and the
unsupported-event exit code are each distinct from 1 and that gate-failure,
unsupported-event and leaks-detected exits are mutually distinguishable.
On the code all three are `process.exit 1`: a gate-failure run
(organization owner, no license), an unsupported-event run (`issues`), and
a leaks run (executor returns the sentinel 2) terminate identically. -/
theorem c2_exit_codes_counterexample :
    (runController envBase
        { collabBase with userLookup := Except.ok "Organization" }
        "acme" "a" "b").2 = Termination.exited 1 ∧
    (runController { envBase with GITHUB_EVENT_NAME := "issues" } collabBase
        "acme" "a" "b").2 = Termination.exited 1 ∧
    (runController envBase { collabBase with scanResult := Except.ok 2 }
        "acme" "a" "b").2 = Termination.exited 1 := by
  refine ⟨?_, ?_, ?_⟩ <;> decide

/-- C2 amended: a gate-failure exit, an unsupported-event exit and a
leaks-detected exit each use a fixed non-zero exit code, but it is the
same code, 1, in all three cases — the gate and unsupported-event codes
are not distinct from the leaks code, and the three exits are not
distinguishable by exit code. -/
theorem c2_exit_codes_amended (env : Env) (c : Collab) (u a b : String) :
    (c.userLookup ≠ Except.ok "User" →
      (env.GITLEAKS_LICENSE = none ∨ env.GITLEAKS_LICENSE = some "") →
      (runController env c u a b).2 = Termination.exited 1) ∧
    (supportedEvents.contains env.GITHUB_EVENT_NAME = false →
      (runController env c u a b).2 = Termination.exited 1) ∧
    (∀ k : Int, dispatchResult env c = Except.ok k →
      k = c.EXIT_CODE_LEAKS_DETECTED → k ≠ 0 →
      gateBlocks (classifyUser u c.userLookup).2 env.GITLEAKS_LICENSE
        = false →
      ((classifyUser u c.userLookup).2 = true →
        c.validateKeyResult = none) →
      supportedEvents.contains env.GITHUB_EVENT_NAME = true →
      (runController env c u a b).2 = Termination.exited 1) := by
  refine ⟨?_, ?_, ?_⟩
  · intro hNotUser hlic
    have hsv := classifyUser_snd_eq_true u c.userLookup hNotUser
    have hgate : gateBlocks (classifyUser u c.userLookup).2
        env.GITLEAKS_LICENSE = true := by
      rcases hlic with h | h <;> simp [gateBlocks, hsv, h, envTruthy]
    simp [runController, hgate]
  · intro hev
    by_cases hg : gateBlocks (classifyUser u c.userLookup).2
        env.GITLEAKS_LICENSE = true
    · simp [runController, hg]
    · rw [runController_gate_pass env c u a b (by simpa using hg),
        start_unsupported env c _ a b hev]
  · intro k hd hk h0 hgate hval hs
    rw [runController_gate_pass env c u a b hgate]
    cases hsv : (classifyUser u c.userLookup).2 with
    | false =>
      rw [start_of_supported_false env c a b hs,
        startAfterValidate_ok env c [] a b k hd]
      exact interpretOutcome_snd_sentinel _ k hk h0
    | true =>
      rw [start_of_supported_true env c a b hs (hval hsv),
        startAfterValidate_ok env c [Step.validateKey] a b k hd]
      exact interpretOutcome_snd_sentinel _ k hk h0

/-- Witness for C2 (amended), leaks branch: individual owner, push event,
executor returns the sentinel 2; the run exits 1. -/
theorem c2_exit_codes_amended_witness :
    (runController envBase { collabBase with scanResult := Except.ok 2 }
      "acme" "a" "b").2 = Termination.exited 1 :=
  (c2_exit_codes_amended envBase
    { collabBase with scanResult := Except.ok 2 } "acme" "a" "b").2.2 2
    (by decide) (by decide) (by decide) (by decide) (by decide) (by decide)

/-- C3 counterexample: the claim says the reporter is invoked at least
once whenever the scan executor was invoked, with `summaryEnabled` only
toggling the durable document.  With `GITLEAKS_ENABLE_SUMMARY="false"` the
executor is invoked (and even signals an execution-error code 5) yet
`summary.Write` is invoked zero times — the flag gates the reporter
invocation itself (`src/index.js` lines 150-152). -/
theorem c3_reporter_counterexample :
    countScanExec (runController
      { envBase with GITLEAKS_ENABLE_SUMMARY := some "false" }
      { collabBase with scanResult := Except.ok 5 } "octocat" "a" "b").1
      = 1 ∧
    countSummaryWrite (runController
      { envBase with GITLEAKS_ENABLE_SUMMARY := some "false" }
      { collabBase with scanResult := Except.ok 5 } "octocat" "a" "b").1
      = 0 := by
  refine ⟨?_, ?_⟩ <;> decide

/-- C3 amended: whenever the scan executor was invoked and returned a
numeric exit code (it did not throw), the reporter is invoked exactly
once if `summaryEnabled` is true — including when the code signals an
execution error — and zero times if `summaryEnabled` is false: the flag
gates the reporter invocation itself, not merely the document.  The
outcome interpretation and exit-code logic run in both cases and do not
depend on the flag. -/
theorem c3_reporter_amended (env : Env) (c : Collab) (u a b : String)
    (k : Int)
    (hgate : gateBlocks (classifyUser u c.userLookup).2 env.GITLEAKS_LICENSE
      = false)
    (hval : (classifyUser u c.userLookup).2 = true →
      c.validateKeyResult = none)
    (hev : env.GITHUB_EVENT_NAME = "push" ∨
      env.GITHUB_EVENT_NAME = "workflow_dispatch" ∨
      env.GITHUB_EVENT_NAME = "pull_request")
    (hd : dispatchResult env c = Except.ok k) :
    countScanExec (runController env c u a b).1 = 1 ∧
    countSummaryWrite (runController env c u a b).1 =
      (if gitleaksEnableSummary env then 1 else 0) ∧
    (runController env c u a b).2 =
      (interpretOutcome c.EXIT_CODE_LEAKS_DETECTED k).2 := by
  have hs : supportedEvents.contains env.GITHUB_EVENT_NAME = true := by
    rcases hev with h | h | h <;> simp [supportedEvents, h]
  rw [runController_gate_pass env c u a b hgate]
  cases hsv : (classifyUser u c.userLookup).2 with
  | false =>
    rw [start_of_supported_false env c a b hs]
    refine ⟨countScanExec_startAfterValidate env c [] a b rfl hev,
      countSummaryWrite_startAfterValidate_ok env c [] a b k rfl hd, ?_⟩
    rw [startAfterValidate_ok env c [] a b k hd]
  | true =>
    rw [start_of_supported_true env c a b hs (hval hsv)]
    refine ⟨countScanExec_startAfterValidate env c [Step.validateKey] a b
        rfl hev,
      countSummaryWrite_startAfterValidate_ok env c [Step.validateKey]
        a b k rfl hd, ?_⟩
    rw [startAfterValidate_ok env c [Step.validateKey] a b k hd]

/-- Witness for C3 (amended): summary enabled (unset variable), push
event, executor returns error code 5; reporter invoked exactly once. -/
theorem c3_reporter_amended_witness :
    countSummaryWrite (runController envBase
      { collabBase with scanResult := Except.ok 5 } "octocat" "a" "b").1
      = 1 :=
  ((c3_reporter_amended envBase
    { collabBase with scanResult := Except.ok 5 } "octocat" "a" "b" 5
    (by decide) (by decide) (Or.inl rfl) (by decide)).2.1).trans (by decide)

/-- C4 counterexample: the claim says a throwing executor is caught and
mapped to an execution-error outcome so the run still reaches the
reporting and exit-code steps.  On the code nothing catches it: with the
summary enabled and `gitleaks.Scan` rejecting with "ECONNRESET", the run
crashes as an unhandled rejection, `summary.Write` is invoked zero times
and no exit-code interpretation happens. -/
theorem c4_executor_throw_counterexample :
    (runController envBase
      { collabBase with scanResult := Except.error "ECONNRESET" }
      "octocat" "a" "b").2 = Termination.crashed "ECONNRESET" ∧
    countSummaryWrite (runController envBase
      { collabBase with scanResult := Except.error "ECONNRESET" }
      "octocat" "a" "b").1 = 0 ∧
    countScanExec (runController envBase
      { collabBase with scanResult := Except.error "ECONNRESET" }
      "octocat" "a" "b").1 = 1 := by
  refine ⟨?_, ?_, ?_⟩ <;> decide

/-- C4 amended: if the scan executor throws instead of returning a numeric
exit code, the controller does not catch the failure: the rejection
propagates out of `start` unhandled, the reporter is never invoked and
the exit-code interpretation never runs (the executor itself was invoked
exactly once). -/
theorem c4_executor_throw_amended (env : Env) (c : Collab) (u a b e : String)
    (hgate : gateBlocks (classifyUser u c.userLookup).2 env.GITLEAKS_LICENSE
      = false)
    (hval : (classifyUser u c.userLookup).2 = true →
      c.validateKeyResult = none)
    (hev : env.GITHUB_EVENT_NAME = "push" ∨
      env.GITHUB_EVENT_NAME = "workflow_dispatch" ∨
      env.GITHUB_EVENT_NAME = "pull_request")
    (hd : dispatchResult env c = Except.error e) :
    (runController env c u a b).2 = Termination.crashed e ∧
    countSummaryWrite (runController env c u a b).1 = 0 ∧
    countScanExec (runController env c u a b).1 = 1 := by
  have hs : supportedEvents.contains env.GITHUB_EVENT_NAME = true := by
    rcases hev with h | h | h <;> simp [supportedEvents, h]
  rw [runController_gate_pass env c u a b hgate]
  cases hsv : (classifyUser u c.userLookup).2 with
  | false =>
    rw [start_of_supported_false env c a b hs]
    refine ⟨?_, countSummaryWrite_startAfterValidate_err env c [] a b e
        rfl hd,
      countScanExec_startAfterValidate env c [] a b rfl hev⟩
    rw [startAfterValidate_err env c [] a b e hd]
  | true =>
    rw [start_of_supported_true env c a b hs (hval hsv)]
    refine ⟨?_, countSummaryWrite_startAfterValidate_err env c
        [Step.validateKey] a b e rfl hd,
      countScanExec_startAfterValidate env c [Step.validateKey] a b
        rfl hev⟩
    rw [startAfterValidate_err env c [Step.validateKey] a b e hd]

/-- Witness for C4 (amended): pull_request event whose executor rejects. -/
theorem c4_executor_throw_amended_witness :
    (runController { envBase with GITHUB_EVENT_NAME := "pull_request" }
      { collabBase with scanPRResult := Except.error "boom" }
      "octocat" "a" "b").2 = Termination.crashed "boom" :=
  (c4_executor_throw_amended
    { envBase with GITHUB_EVENT_NAME := "pull_request" }
    { collabBase with scanPRResult := Except.error "boom" }
    "octocat" "a" "b" "boom" (by decide) (by decide)
    (Or.inr (Or.inr rfl)) (by decide)).1

/-- C10: for the push and workflow_dispatch event kinds the controller
invokes the scan executor with identical arguments except for the
eventType string: the same uploadArtifact flag
(`gitleaksEnableUploadArtifact env`) and the same scanInfo record with
`headRef = eventJSON.after`, `baseRef = eventJSON.before` (and the same
`gitleaksPath`); the two dispatch branches are equivalent up to the
eventType parameter. -/
theorem c10_push_dispatch_equivalence (env : Env) (c : Collab)
    (u a b : String)
    (hgate : gateBlocks (classifyUser u c.userLookup).2 env.GITLEAKS_LICENSE
      = false)
    (hval : (classifyUser u c.userLookup).2 = true →
      c.validateKeyResult = none) :
    scanCallsOf (runController { env with GITHUB_EVENT_NAME := "push" }
        c u a b).1 =
      [ScanCall.scan (gitleaksEnableUploadArtifact env)
        { headRef := a, baseRef := b, gitleaksPath := c.installPath }
        "push"] ∧
    scanCallsOf (runController
        { env with GITHUB_EVENT_NAME := "workflow_dispatch" } c u a b).1 =
      [ScanCall.scan (gitleaksEnableUploadArtifact env)
        { headRef := a, baseRef := b, gitleaksPath := c.installPath }
        "workflow_dispatch"] := by
  constructor
  · rw [runController_gate_pass { env with GITHUB_EVENT_NAME := "push" }
      c u a b hgate]
    exact scanCallsOf_start_supported _ c _ a b hval (Or.inl rfl)
  · rw [runController_gate_pass
      { env with GITHUB_EVENT_NAME := "workflow_dispatch" } c u a b hgate]
    exact scanCallsOf_start_supported _ c _ a b hval (Or.inr rfl)

/-- Witness for C10: concrete manual-dispatch run receives the push-style
commit-range refs. -/
theorem c10_push_dispatch_equivalence_witness :
    scanCallsOf (runController
      { envBase with GITHUB_EVENT_NAME := "workflow_dispatch" } collabBase
      "octocat" "headsha" "basesha").1 =
      [ScanCall.scan true
        { headRef := "headsha", baseRef := "basesha",
          gitleaksPath := "gitleaks" } "workflow_dispatch"] :=
  ((c10_push_dispatch_equivalence envBase collabBase "octocat" "headsha"
    "basesha" (by decide) (by decide)).2).trans (by decide)

end GitleaksAction
